import Mathlib

/-!
Formal model of `src/functions/src/services/pdfProcessor.py`.

The program is a thin orchestration layer around two PDF libraries
(pypdf for text extraction, pdf2image/PIL for page rendering) plus
base64/JSON plumbing.  The libraries are embedded as oracles: a `PdfLib`
value records, for a given byte buffer, what pypdf's reader yields and
what pdf2image's `convert_from_bytes` yields.  Everything the Python
file itself does (page loop, marker strings, fallback image, base64
decoding of stdin, JSON assembly, the printed diagnostic lines) is
translated directly below.
-/

/-- Outcome of one pypdf `page.extract_text()` call: the extracted text,
or the message of the exception the call raised. -/
inductive PageOutcome where
  | ok (text : String)
  | err (msg : String)
deriving DecidableEq

/-- Outcome of opening a buffer with `PdfReader` and walking its pages:
either the per-page outcomes in document order, or the message of the
exception raised while opening/reading the document itself. -/
inductive ExtractOutcome where
  | openFail (msg : String)
  | pages (ps : List PageOutcome)
deriving DecidableEq

/-- Abstraction of a PIL image: dimensions plus a raw payload.  PIL's PNG
serialisation is modelled by `pngEncode` below; `Image.new` with a fill
colour is represented by the fill colour bytes as payload. -/
structure Image where
  width : Nat
  height : Nat
  pixels : List Nat
deriving DecidableEq

/-- Outcome of a `convert_from_bytes` call: the rendered images, or the
message of the exception it raised. -/
inductive RenderOutcome where
  | ok (imgs : List Image)
  | err (msg : String)
deriving DecidableEq

/-- Oracle describing the behaviour of the two PDF libraries on a given
byte buffer (and, for rendering, a 0-based page number). -/
structure PdfLib where
  extract : List Nat → ExtractOutcome
  render : List Nat → Nat → RenderOutcome

/-- The eight PNG signature bytes. -/
def pngSignature : List Nat := [137, 80, 78, 71, 13, 10, 26, 10]

/-- Model of PIL's PNG serialisation (`image.save(buffer, format='PNG')`):
the PNG signature followed by the dimensions and the payload, everything
reduced to bytes. -/
def pngEncode (img : Image) : List Nat :=
  pngSignature ++
    [img.width % 256, img.width / 256 % 256, img.height % 256, img.height / 256 % 256] ++
    img.pixels.map (fun p => p % 256)

/-- A byte list is a well-formed PNG when it starts with the PNG
signature. -/
def isPNG : List Nat → Bool
  | 137 :: 80 :: 78 :: 71 :: 13 :: 10 :: 26 :: 10 :: _ => true
  | _ => false

/-- The standard base64 alphabet, as used by Python's `base64` module. -/
def b64Alphabet : List Char :=
  "ABCDEFGHIJKLMNOPQRSTUVWXYZabcdefghijklmnopqrstuvwxyz0123456789+/".toList

/-- The base64 digit for a 6-bit value. -/
def alphaChar (n : Nat) : Char := b64Alphabet.getD n 'A'

/-- The 6-bit value of a base64 digit, `none` for characters outside the
alphabet. -/
def alphaIdx (c : Char) : Option Nat :=
  if b64Alphabet.contains c then some (b64Alphabet.indexOf c) else none

/-- Model of `base64.b64encode`: bytes to base64 characters, three bytes
per four digits, padded with `=`. -/
def b64EncodeBytes : List Nat → List Char
  | [] => []
  | [a] => [alphaChar (a / 4), alphaChar (a % 4 * 16), '=', '=']
  | [a, b] => [alphaChar (a / 4), alphaChar (a % 4 * 16 + b / 16), alphaChar (b % 16 * 4), '=']
  | a :: b :: c :: rest =>
      alphaChar (a / 4) :: alphaChar (a % 4 * 16 + b / 16) ::
        alphaChar (b % 16 * 4 + c / 64) :: alphaChar (c % 64) :: b64EncodeBytes rest

/-- Model of `base64.b64encode(...).decode('utf-8')`: the encoded
characters as a string. -/
def b64encode (bs : List Nat) : String := String.mk (b64EncodeBytes bs)

/-- Characters Python's (non-validating) `base64.b64decode` keeps:
alphabet characters and the padding character; everything else is
discarded before decoding. -/
def b64KeepChar (c : Char) : Bool := b64Alphabet.contains c || c == '='

/-- Decode a filtered base64 character stream, four digits at a time.
Mirrors Python's `base64.b64decode` error behaviour: a stream whose
length is not a multiple of four, or padding in the wrong place, raises
`binascii.Error`, modelled as `Except.error` with a non-empty message. -/
def b64DecodeGroups : List Char → Except String (List Nat)
  | [] => Except.ok []
  | a :: b :: c :: d :: rest =>
      match alphaIdx a, alphaIdx b with
      | some x, some y =>
          if c = '=' then
            if d = '=' ∧ rest = [] then Except.ok [x * 4 + y / 16]
            else Except.error "Invalid base64-encoded string: wrong padding"
          else
            match alphaIdx c with
            | some z =>
                if d = '=' then
                  if rest = [] then Except.ok [x * 4 + y / 16, y % 16 * 16 + z / 4]
                  else Except.error "Invalid base64-encoded string: wrong padding"
                else
                  match alphaIdx d with
                  | some w =>
                      match b64DecodeGroups rest with
                      | Except.ok tail =>
                          Except.ok ((x * 4 + y / 16) :: (y % 16 * 16 + z / 4) ::
                            (z % 4 * 64 + w) :: tail)
                      | Except.error e => Except.error e
                  | none => Except.error "Invalid base64-encoded string: bad character"
            | none => Except.error "Invalid base64-encoded string: bad character"
      | _, _ => Except.error "Invalid base64-encoded string: bad character"
  | _ => Except.error "Incorrect padding"

/-- Model of `base64.b64decode` applied to a string: discard characters
outside the alphabet (Python's default non-validating mode), then decode
the remaining stream in groups of four. -/
def b64decode (s : String) : Except String (List Nat) :=
  b64DecodeGroups (s.toList.filter b64KeepChar)

/-- Model of Python `str.strip()`: drop leading and trailing whitespace. -/
def pyStrip (s : String) : String :=
  String.mk (((s.toList.dropWhile Char.isWhitespace).reverse.dropWhile
    Char.isWhitespace).reverse)

/-- The page marker string `"--- Page N ---"` the extractor emits before a
page's text. -/
def pageMarker (n : Nat) : String := "--- Page " ++ Nat.repr n ++ " ---"

/-- The string the extractor appends when a page's `extract_text()` call
raises: the marker followed by the literal failure annotation. -/
def failedMarker (n : Nat) : String :=
  "--- Page " ++ Nat.repr n ++ " --- [Text extraction failed]"

/-- The page loop of `extract_text_from_pdf` (lines 35-44): walk the pages
with a 0-based counter, collecting the `text_content` entries (first
component) and the diagnostic lines printed along the way (second
component).  A page whose call returns text appends the marker and the
text only when the text is non-empty (Python truthiness of `if
page_text:`); a page whose call raises appends the annotated marker and
prints an error line. -/
def extractLoop : List PageOutcome → Nat → List String × List String
  | [], _ => ([], [])
  | PageOutcome.ok t :: rest, n =>
      let r := extractLoop rest (n + 1)
      ((if t = "" then [] else [pageMarker (n + 1), t]) ++ r.1, r.2)
  | PageOutcome.err e :: rest, n =>
      let r := extractLoop rest (n + 1)
      (failedMarker (n + 1) :: r.1,
        ("Error extracting text from page " ++ Nat.repr (n + 1) ++ ": " ++ e) :: r.2)

/-- The body of `extract_text_from_pdf`'s `try` block: `Except.error`
models an exception escaping the body (opening/reading the document
failing), `Except.ok` the normal return carrying the joined text and the
printed diagnostic lines. -/
def extract_text_body (o : ExtractOutcome) : Except String (String × List String) :=
  match o with
  | ExtractOutcome.openFail msg => Except.error msg
  | ExtractOutcome.pages ps =>
      let r := extractLoop ps 0
      let full_text := String.intercalate "\n" r.1
      Except.ok (full_text,
        r.2 ++ ["Successfully extracted " ++ Nat.repr full_text.length ++
          " characters from " ++ Nat.repr ps.length ++ " pages"])

/-- `extract_text_from_pdf` with its `try/except` handler: an exception
from the body is caught and converted into the failure string, so the
result is always `Except.ok`. -/
def extract_text_sem (o : ExtractOutcome) : Except String (String × List String) :=
  match extract_text_body o with
  | Except.ok r => Except.ok r
  | Except.error e =>
      Except.ok ("[PDF text extraction failed: " ++ e ++ "]",
        ["Error extracting text from PDF: " ++ e])

/-- The string returned by `extract_text_from_pdf` together with the
lines it prints. -/
def extract_text_run (o : ExtractOutcome) : String × List String :=
  (extract_text_sem o).toOption.getD ("", [])

/-- The string returned by `extract_text_from_pdf`. -/
def extract_text_from_pdf (o : ExtractOutcome) : String := (extract_text_run o).1

/-- The blank white fallback image `Image.new('RGB', (400, 200),
color='white')` built in `convert_pdf_to_image`'s handler; the payload
bytes are the RGB white fill colour. -/
def fallbackImage : Image := { width := 400, height := 200, pixels := [255, 255, 255] }

/-- The base64 string of the PNG encoding of the fallback image, as the
handler of `convert_pdf_to_image` computes it. -/
def fallbackBase64 : String := b64encode (pngEncode fallbackImage)

/-- The body of `convert_pdf_to_image`'s `try` block (lines 64-84):
render the requested page, raise when the library raised or returned no
images, otherwise PNG-encode and base64-encode the first image. -/
def convert_body (lib : PdfLib) (buf : List Nat) (page_number : Nat) :
    Except String (String × List String) :=
  match lib.render buf page_number with
  | RenderOutcome.err e => Except.error e
  | RenderOutcome.ok [] => Except.error "No images generated from PDF"
  | RenderOutcome.ok (image :: _) =>
      let image_base64 := b64encode (pngEncode image)
      Except.ok (image_base64,
        ["Successfully converted PDF page " ++ Nat.repr (page_number + 1) ++
          " to image (" ++ Nat.repr image_base64.length ++ " chars base64)"])

/-- `convert_pdf_to_image` with its handler: any exception is caught, an
error line is printed and the constant fallback image is encoded and
returned, so the result is always `Except.ok`. -/
def convert_sem (lib : PdfLib) (buf : List Nat) (page_number : Nat) :
    Except String (String × List String) :=
  match convert_body lib buf page_number with
  | Except.ok r => Except.ok r
  | Except.error e =>
      Except.ok (fallbackBase64, ["Error converting PDF to image: " ++ e])

/-- The string returned by `convert_pdf_to_image` together with the lines
it prints. -/
def convert_run (lib : PdfLib) (buf : List Nat) (page_number : Nat) : String × List String :=
  (convert_sem lib buf page_number).toOption.getD ("", [])

/-- The base64 string returned by `convert_pdf_to_image`. -/
def convert_pdf_to_image (lib : PdfLib) (buf : List Nat) (page_number : Nat) : String :=
  (convert_run lib buf page_number).1

/-- Whether the body of `convert_pdf_to_image` raises: the renderer raised
or returned no images. -/
def renderFails (lib : PdfLib) (buf : List Nat) (n : Nat) : Prop :=
  (∃ e, lib.render buf n = RenderOutcome.err e) ∨ lib.render buf n = RenderOutcome.ok []

/-- The result record assembled by `process_pdf` and `main` (§3's
`ProcessResult`): `error` is `none` exactly when the record is a success
record without an `error` key. -/
structure ProcessResult where
  success : Bool
  text : String
  image_base64 : String
  text_length : Nat
  image_size : Nat
  error : Option String
deriving DecidableEq

/-- The failure record built in `process_pdf`'s `except` branch (lines
116-125).  In this model the branch is unreachable, because both
sub-calls catch their own exceptions, but the record shape is part of
the code. -/
def processFailureRecord (e : String) : ProcessResult :=
  { success := false
    error := some e
    text := "[PDF processing failed: " ++ e ++ "]"
    image_base64 := ""
    text_length := 0
    image_size := 0 }

/-- `process_pdf`: extract the text, render page 0, assemble the success
record; the second component collects every line printed on the way. -/
def process_pdf_run (lib : PdfLib) (buf : List Nat) : ProcessResult × List String :=
  let e := extract_text_run (lib.extract buf)
  let c := convert_run lib buf 0
  ({ success := true
     text := e.1
     image_base64 := c.1
     text_length := e.1.length
     image_size := c.1.length
     error := none },
   "=== PYTHON PDF PROCESSING START ===" ::
     ("Processing PDF buffer of " ++ Nat.repr buf.length ++ " bytes") ::
     (e.2 ++ c.2 ++ ["=== PYTHON PDF PROCESSING COMPLETE ==="]))

/-- The record returned by `process_pdf`. -/
def process_pdf (lib : PdfLib) (buf : List Nat) : ProcessResult :=
  (process_pdf_run lib buf).1

/-- The failure record built in `main`'s `except` branch (lines 147-154). -/
def mainFailureRecord (e : String) : ProcessResult :=
  { success := false
    error := some e
    text := "[Processing failed: " ++ e ++ "]"
    image_base64 := ""
    text_length := 0
    image_size := 0 }

/-- JSON string escaping as `json.dumps` performs it for the characters
this program produces: backslash, double quote and the common control
characters. -/
def jsonEscape (s : String) : String :=
  String.join (s.toList.map (fun c =>
    if c = '"' then "\\\""
    else if c = '\\' then "\\\\"
    else if c = '\n' then "\\n"
    else if c = '\r' then "\\r"
    else if c = '\t' then "\\t"
    else String.mk [c]))

/-- A JSON string literal. -/
def jsonStr (s : String) : String := "\"" ++ jsonEscape s ++ "\""

/-- `json.dumps` on the result dict, with Python's insertion-ordered keys:
success records carry no `error` key, failure records place `error`
right after `success`. -/
def serializeResult (r : ProcessResult) : String :=
  match r.error with
  | none =>
      "\x7b" ++ jsonStr "success" ++ ": " ++ (if r.success then "true" else "false") ++
        ", " ++ jsonStr "text" ++ ": " ++ jsonStr r.text ++
        ", " ++ jsonStr "image_base64" ++ ": " ++ jsonStr r.image_base64 ++
        ", " ++ jsonStr "text_length" ++ ": " ++ Nat.repr r.text_length ++
        ", " ++ jsonStr "image_size" ++ ": " ++ Nat.repr r.image_size ++ "\x7d"
  | some e =>
      "\x7b" ++ jsonStr "success" ++ ": " ++ (if r.success then "true" else "false") ++
        ", " ++ jsonStr "error" ++ ": " ++ jsonStr e ++
        ", " ++ jsonStr "text" ++ ": " ++ jsonStr r.text ++
        ", " ++ jsonStr "image_base64" ++ ": " ++ jsonStr r.image_base64 ++
        ", " ++ jsonStr "text_length" ++ ": " ++ Nat.repr r.text_length ++
        ", " ++ jsonStr "image_size" ++ ": " ++ Nat.repr r.image_size ++ "\x7d"

/-- The result record `main` serializes: the failure record when decoding
stdin's base64 raises, otherwise the record `process_pdf` returns. -/
def mainResult (lib : PdfLib) (stdin : String) : ProcessResult :=
  match b64decode (pyStrip stdin) with
  | Except.error e => mainFailureRecord e
  | Except.ok buf => process_pdf lib buf

/-- `main` (Lean reserves that name for entry points, hence `main_run`):
every line the program writes to standard output, in order.  All of the
program's `print` calls write to stdout (none pass `file=sys.stderr`),
so this list is the whole stdout stream; nothing is ever written to
stderr. -/
def main_run (lib : PdfLib) (stdin : String) : List String :=
  match b64decode (pyStrip stdin) with
  | Except.error e => [serializeResult (mainFailureRecord e)]
  | Except.ok buf =>
      let r := process_pdf_run lib buf
      r.2 ++ [serializeResult r.1]

/-- A library behaviour with one extractable page and a failing renderer,
used as a concrete instantiation. -/
def libA : PdfLib :=
  { extract := fun _ => ExtractOutcome.pages [PageOutcome.ok "hi"]
    render := fun _ _ => RenderOutcome.err "boom" }

/-- A library behaviour whose renderer returns an empty image list. -/
def libB : PdfLib :=
  { extract := fun _ => ExtractOutcome.pages []
    render := fun _ _ => RenderOutcome.ok [] }

/-- A library behaviour with a single page extracting empty text. -/
def libEmptyPage : PdfLib :=
  { extract := fun _ => ExtractOutcome.pages [PageOutcome.ok ""]
    render := fun _ _ => RenderOutcome.err "x" }

theorem alphaIdx_alphaChar : ∀ n : Nat, n < 64 → alphaIdx (alphaChar n) = some n := by decide

theorem b64KeepChar_alphaChar : ∀ n : Nat, n < 64 → b64KeepChar (alphaChar n) = true := by decide

theorem alphaChar_ne_pad : ∀ n : Nat, n < 64 → ¬ alphaChar n = '=' := by decide

theorem b64KeepChar_pad : b64KeepChar '=' = true := by decide

theorem filter_b64EncodeBytes :
    ∀ bs : List Nat, (∀ x ∈ bs, x < 256) →
      (b64EncodeBytes bs).filter b64KeepChar = b64EncodeBytes bs
  | [], _ => rfl
  | [a], h => by
      have ha : a < 256 := h a (by simp)
      simp [b64EncodeBytes, List.filter,
        b64KeepChar_alphaChar _ (by omega : a / 4 < 64),
        b64KeepChar_alphaChar _ (by omega : a % 4 * 16 < 64), b64KeepChar_pad]
  | [a, b], h => by
      have ha : a < 256 := h a (by simp)
      have hb : b < 256 := h b (by simp)
      simp [b64EncodeBytes, List.filter,
        b64KeepChar_alphaChar _ (by omega : a / 4 < 64),
        b64KeepChar_alphaChar _ (by omega : a % 4 * 16 + b / 16 < 64),
        b64KeepChar_alphaChar _ (by omega : b % 16 * 4 < 64), b64KeepChar_pad]
  | a :: b :: c :: rest, h => by
      have ha : a < 256 := h a (by simp)
      have hb : b < 256 := h b (by simp)
      have hc : c < 256 := h c (by simp)
      have ih := filter_b64EncodeBytes rest (fun x hx => h x (by simp [hx]))
      simp [b64EncodeBytes, List.filter,
        b64KeepChar_alphaChar _ (by omega : a / 4 < 64),
        b64KeepChar_alphaChar _ (by omega : a % 4 * 16 + b / 16 < 64),
        b64KeepChar_alphaChar _ (by omega : b % 16 * 4 + c / 64 < 64),
        b64KeepChar_alphaChar _ (by omega : c % 64 < 64), ih]

theorem b64DecodeGroups_b64EncodeBytes :
    ∀ bs : List Nat, (∀ x ∈ bs, x < 256) →
      b64DecodeGroups (b64EncodeBytes bs) = Except.ok bs
  | [], _ => rfl
  | [a], h => by
      have ha : a < 256 := h a (by simp)
      simp only [b64EncodeBytes, b64DecodeGroups,
        alphaIdx_alphaChar _ (by omega : a / 4 < 64),
        alphaIdx_alphaChar _ (by omega : a % 4 * 16 < 64)]
      simp
      omega
  | [a, b], h => by
      have ha : a < 256 := h a (by simp)
      have hb : b < 256 := h b (by simp)
      simp only [b64EncodeBytes, b64DecodeGroups,
        alphaIdx_alphaChar _ (by omega : a / 4 < 64),
        alphaIdx_alphaChar _ (by omega : a % 4 * 16 + b / 16 < 64),
        alphaIdx_alphaChar _ (by omega : b % 16 * 4 < 64)]
      rw [if_neg (alphaChar_ne_pad _ (by omega : b % 16 * 4 < 64))]
      simp
      constructor
      · omega
      · omega
  | a :: b :: c :: rest, h => by
      have ha : a < 256 := h a (by simp)
      have hb : b < 256 := h b (by simp)
      have hc : c < 256 := h c (by simp)
      have ih := b64DecodeGroups_b64EncodeBytes rest (fun x hx => h x (by simp [hx]))
      simp only [b64EncodeBytes, b64DecodeGroups,
        alphaIdx_alphaChar _ (by omega : a / 4 < 64),
        alphaIdx_alphaChar _ (by omega : a % 4 * 16 + b / 16 < 64),
        alphaIdx_alphaChar _ (by omega : b % 16 * 4 + c / 64 < 64),
        alphaIdx_alphaChar _ (by omega : c % 64 < 64)]
      rw [if_neg (alphaChar_ne_pad _ (by omega : b % 16 * 4 + c / 64 < 64))]
      rw [if_neg (alphaChar_ne_pad _ (by omega : c % 64 < 64))]
      rw [ih]
      simp
      refine ⟨by omega, by omega, by omega⟩

theorem b64_roundtrip (bs : List Nat) (h : ∀ x ∈ bs, x < 256) :
    b64decode (b64encode bs) = Except.ok bs := by
  show b64DecodeGroups ((String.mk (b64EncodeBytes bs)).toList.filter b64KeepChar) = Except.ok bs
  have ht : (String.mk (b64EncodeBytes bs)).toList = b64EncodeBytes bs := rfl
  rw [ht, filter_b64EncodeBytes bs h, b64DecodeGroups_b64EncodeBytes bs h]

theorem b64DecodeGroups_error_ne :
    ∀ (cs : List Char) (e : String), b64DecodeGroups cs = Except.error e → e ≠ ""
  | [], e => by simp [b64DecodeGroups]
  | [a], e => by intro h; simp only [b64DecodeGroups] at h; injection h with h'; subst h'; decide
  | [a, b], e => by intro h; simp only [b64DecodeGroups] at h; injection h with h'; subst h'; decide
  | [a, b, c], e => by intro h; simp only [b64DecodeGroups] at h; injection h with h'; subst h'; decide
  | a :: b :: c :: d :: rest, e => by
      intro h
      simp only [b64DecodeGroups] at h
      split at h
      · split at h
        · split at h
          · exact absurd h (by simp)
          · injection h with h'; subst h'; decide
        · split at h
          · split at h
            · split at h
              · exact absurd h (by simp)
              · injection h with h'; subst h'; decide
            · split at h
              · rename_i heq
                split at h
                · exact absurd h (by simp)
                · rename_i e' heq'
                  injection h with h'
                  subst h'
                  exact b64DecodeGroups_error_ne rest _ heq'
              · injection h with h'; subst h'; decide
          · injection h with h'; subst h'; decide
      · injection h with h'; subst h'; decide

theorem pngEncode_lt (img : Image) : ∀ x ∈ pngEncode img, x < 256 := by
  intro x hx
  simp only [pngEncode, pngSignature, List.append_assoc, List.mem_append, List.mem_cons,
    List.mem_singleton, List.mem_map, List.not_mem_nil, or_false] at hx
  rcases hx with h | h | h
  · rcases h with h | h | h | h | h | h | h | h <;> omega
  · rcases h with h | h | h | h <;> (subst h; exact Nat.mod_lt _ (by omega))
  · rcases h with ⟨p, _, hp⟩
    subst hp
    exact Nat.mod_lt _ (by omega)

theorem isPNG_pngEncode (img : Image) : isPNG (pngEncode img) = true := rfl

theorem String_mk_cons_ne (c : Char) (cs : List Char) : String.mk (c :: cs) ≠ "" := by
  intro h
  have := congrArg String.data h
  simp at this

theorem b64encode_cons_ne (a : Nat) (bs : List Nat) : b64encode (a :: bs) ≠ "" := by
  show String.mk (b64EncodeBytes (a :: bs)) ≠ ""
  match bs with
  | [] => exact String_mk_cons_ne _ _
  | [b] => exact String_mk_cons_ne _ _
  | b :: c :: rest => exact String_mk_cons_ne _ _

theorem b64encode_pngEncode_ne (img : Image) : b64encode (pngEncode img) ≠ "" :=
  b64encode_cons_ne _ _

theorem convert_fails_eq (lib : PdfLib) (buf : List Nat) (n : Nat)
    (h : renderFails lib buf n) : convert_pdf_to_image lib buf n = fallbackBase64 := by
  rcases h with ⟨e, he⟩ | he <;>
    simp [convert_pdf_to_image, convert_run, convert_sem, convert_body, he, Except.toOption]

theorem convert_cases (lib : PdfLib) (buf : List Nat) (n : Nat) :
    (∃ img rest, lib.render buf n = RenderOutcome.ok (img :: rest) ∧
      convert_pdf_to_image lib buf n = b64encode (pngEncode img)) ∨
    convert_pdf_to_image lib buf n = fallbackBase64 := by
  cases hr : lib.render buf n with
  | err e => exact Or.inr (convert_fails_eq lib buf n (Or.inl ⟨e, hr⟩))
  | ok imgs =>
    cases imgs with
    | nil => exact Or.inr (convert_fails_eq lib buf n (Or.inr hr))
    | cons img rest =>
      refine Or.inl ⟨img, rest, rfl, ?_⟩
      simp [convert_pdf_to_image, convert_run, convert_sem, convert_body, hr, Except.toOption]

theorem extractLoop_append :
    ∀ (xs ys : List PageOutcome) (k : Nat),
      extractLoop (xs ++ ys) k =
        ((extractLoop xs k).1 ++ (extractLoop ys (k + xs.length)).1,
         (extractLoop xs k).2 ++ (extractLoop ys (k + xs.length)).2)
  | [], ys, k => by simp [extractLoop]
  | PageOutcome.ok t :: rest, ys, k => by
      have ih := extractLoop_append rest ys (k + 1)
      have hk : k + (PageOutcome.ok t :: rest).length = k + 1 + rest.length := by
        simp [List.length_cons]
        omega
      rw [hk]
      simp only [List.cons_append, extractLoop, List.append_eq, ih]
      simp [List.append_assoc]
  | PageOutcome.err e :: rest, ys, k => by
      have ih := extractLoop_append rest ys (k + 1)
      have hk : k + (PageOutcome.err e :: rest).length = k + 1 + rest.length := by
        simp [List.length_cons]
        omega
      rw [hk]
      simp only [List.cons_append, extractLoop, List.append_eq, ih]

theorem extractLoop_all_empty :
    ∀ (ps : List PageOutcome) (k : Nat), (∀ p ∈ ps, p = PageOutcome.ok "") →
      extractLoop ps k = ([], [])
  | [], _, _ => rfl
  | p :: rest, k, h => by
      have hp : p = PageOutcome.ok "" := h p (by simp)
      subst hp
      have ih := extractLoop_all_empty rest (k + 1) (fun q hq => h q (by simp [hq]))
      simp [extractLoop, ih]

theorem extractLoop_nonempty_ok :
    ∀ (ts : List String) (k : Nat), (∀ t ∈ ts, t ≠ "") →
      (extractLoop (ts.map PageOutcome.ok) k).1 =
        (List.enumFrom k ts).flatMap (fun p => [pageMarker (p.1 + 1), p.2])
  | [], _, _ => rfl
  | t :: rest, k, h => by
      have ht : t ≠ "" := h t (by simp)
      have ih := extractLoop_nonempty_ok rest (k + 1) (fun q hq => h q (by simp [hq]))
      simp [extractLoop, List.enumFrom, ih, if_neg ht]

theorem main_run_split (lib : PdfLib) (stdin : String) :
    ∃ ds, main_run lib stdin = ds ++ [serializeResult (mainResult lib stdin)] := by
  unfold main_run mainResult
  cases hd : b64decode (pyStrip stdin) with
  | error e => exact ⟨[], rfl⟩
  | ok buf => exact ⟨(process_pdf_run lib buf).2, rfl⟩

/-- C1 counterexample: a valid two-page document whose second page
extracts as the empty string.  The claim requires exactly one page-2
marker; the code emits none (no element of the text content equals, or
even begins, the page-2 marker or its annotated form), so the text
output of `extract_text_from_pdf` contains no `"--- Page 2 ---"` at all. -/
theorem c1_counterexample :
    ¬ (∀ n, 1 ≤ n → n ≤ ([PageOutcome.ok "a", PageOutcome.ok ""] : List PageOutcome).length →
        (extractLoop [PageOutcome.ok "a", PageOutcome.ok ""] 0).1.countP
          (fun s => s == pageMarker n || s == failedMarker n) = 1) := by
  intro h
  have h2 := h 2 (by omega) (by decide)
  revert h2
  decide

/-- C1 (amended): when every page's extraction returns non-empty text,
the text content is exactly `marker 1, text 1, marker 2, text 2, ...`,
one marker per page with 1-based numbers in document order; a page whose
extraction returns empty text contributes no marker at all and is simply
skipped, the remaining pages keeping their own (now non-contiguous)
numbers. -/
theorem c1_page_markers :
    (∀ ts : List String, (∀ t ∈ ts, t ≠ "") →
      (extractLoop (ts.map PageOutcome.ok) 0).1 =
        (List.enumFrom 0 ts).flatMap (fun p => [pageMarker (p.1 + 1), p.2])) ∧
    (∀ pre rest : List PageOutcome,
      (extractLoop (pre ++ PageOutcome.ok "" :: rest) 0).1 =
        (extractLoop pre 0).1 ++ (extractLoop rest (pre.length + 1)).1) := by
  constructor
  · exact fun ts h => extractLoop_nonempty_ok ts 0 h
  · intro pre rest
    have h1 : (extractLoop (pre ++ PageOutcome.ok "" :: rest) 0).1 =
        (extractLoop pre 0).1 ++ (extractLoop (PageOutcome.ok "" :: rest) (0 + pre.length)).1 := by
      rw [extractLoop_append pre (PageOutcome.ok "" :: rest) 0]
    rw [h1]
    simp [extractLoop]

/-- C1 witness: the amended statement evaluated on a concrete two-page
document with non-empty texts and on a concrete document with an
empty-text middle page. -/
theorem c1_witness :
    (extractLoop ([PageOutcome.ok "a", PageOutcome.ok "b"]) 0).1 =
      (List.enumFrom 0 ["a", "b"]).flatMap (fun p => [pageMarker (p.1 + 1), p.2]) ∧
    (extractLoop ([PageOutcome.ok "x"] ++ PageOutcome.ok "" :: [PageOutcome.ok "y"]) 0).1 =
      (extractLoop [PageOutcome.ok "x"] 0).1 ++
        (extractLoop [PageOutcome.ok "y"] (([PageOutcome.ok "x"] : List PageOutcome).length + 1)).1 :=
  ⟨c1_page_markers.1 ["a", "b"] (by decide),
   c1_page_markers.2 [PageOutcome.ok "x"] [PageOutcome.ok "y"]⟩

/-- C2 counterexample: in the failure record of `process_pdf` the
`text_length` field is 0 while `text` is the non-empty placeholder
`"[PDF processing failed: test]"`, so `text_length` does not equal the
character length of `text`. -/
theorem c2_counterexample :
    ¬ ((processFailureRecord "test").text_length =
        (processFailureRecord "test").text.length) := by decide

/-- C2 (amended): in the success record both `text_length` and
`image_size` equal the character lengths of `text` and `image_base64`;
in the failure record `image_size` equals the length of `image_base64`
(both are zero), but `text_length` is 0 while `text` is a non-empty
placeholder. -/
theorem c2_lengths :
    (∀ (lib : PdfLib) (buf : List Nat),
      (process_pdf lib buf).text_length = (process_pdf lib buf).text.length ∧
      (process_pdf lib buf).image_size = (process_pdf lib buf).image_base64.length) ∧
    (∀ e : String,
      (processFailureRecord e).image_size = (processFailureRecord e).image_base64.length ∧
      (processFailureRecord e).text_length = 0 ∧
      (processFailureRecord e).text ≠ "") := by
  refine ⟨fun lib buf => ⟨rfl, rfl⟩, fun e => ⟨rfl, rfl, ?_⟩⟩
  intro h
  have hl := congrArg String.length h
  simp only [processFailureRecord] at hl
  rw [String.length_append, String.length_append] at hl
  have h24 : ("[PDF processing failed: " : String).length = 24 := rfl
  have h1 : ("]" : String).length = 1 := rfl
  have h0 : ("" : String).length = 0 := rfl
  omega

/-- C3 counterexample: for the stdin input `"abc"` (invalid base64) the
record the program emits has an empty `image_base64` field, which is not
a decodable PNG, refuting "the field is never empty" for the failure
case. -/
theorem c3_counterexample :
    ¬ ((mainResult libA "abc").image_base64 ≠ "" ∧
       ∃ bs, b64decode ((mainResult libA "abc").image_base64) = Except.ok bs ∧
         isPNG bs = true) := by
  intro h
  exact h.1 (by decide)

/-- C3 (amended): whenever `process_pdf` runs (the stdin base64 decoded),
the emitted record's `image_base64` is non-empty and base64-decodes into
valid PNG bytes, for both the rendered page and the fallback image; only
the entry-point failure record (emitted when stdin is not valid base64)
carries an empty `image_base64`. -/
theorem c3_image_roundtrip :
    (∀ (lib : PdfLib) (buf : List Nat),
      (process_pdf lib buf).image_base64 ≠ "" ∧
      ∃ bs, b64decode ((process_pdf lib buf).image_base64) = Except.ok bs ∧
        isPNG bs = true) ∧
    (∀ e : String, (mainFailureRecord e).image_base64 = "") := by
  constructor
  · intro lib buf
    have himg : (process_pdf lib buf).image_base64 = convert_pdf_to_image lib buf 0 := rfl
    rw [himg]
    rcases convert_cases lib buf 0 with ⟨img, rest, _, heq⟩ | heq <;> rw [heq]
    · exact ⟨b64encode_pngEncode_ne img,
        pngEncode img, b64_roundtrip _ (pngEncode_lt img), isPNG_pngEncode img⟩
    · exact ⟨b64encode_pngEncode_ne fallbackImage, pngEncode fallbackImage,
        b64_roundtrip _ (pngEncode_lt fallbackImage), isPNG_pngEncode fallbackImage⟩
  · intro e
    rfl

/-- C4 counterexample: on the valid base64 stdin `"aGVsbG8="` the program
writes six lines to standard output (the diagnostic progress messages
are `print`ed to stdout, not stderr), not the single JSON line the claim
requires. -/
theorem c4_counterexample :
    main_run libA "aGVsbG8=" ≠ [serializeResult (mainResult libA "aGVsbG8=")] := by
  intro h
  exact absurd (congrArg List.length h) (by decide)

/-- C4 (amended): everything the program prints, diagnostics included,
goes to standard output; the JSON serialization of the result record is
printed once, as the last stdout line, after all processing completes
(nothing is ever written to stderr, the program has no stderr writes). -/
theorem c4_stdout_shape :
    ∀ (lib : PdfLib) (stdin : String),
      ∃ ds, main_run lib stdin = ds ++ [serializeResult (mainResult lib stdin)] :=
  main_run_split

/-- C5 counterexample: a document whose first page extraction returns the
empty string.  The claim requires the output to contain page 1's marker
with the failure annotation; the code emits neither the annotated marker
nor the plain marker for that page. -/
theorem c5_counterexample :
    ¬ (failedMarker 1 ∈ (extractLoop [PageOutcome.ok "", PageOutcome.ok "x"] 0).1 ∨
       pageMarker 1 ∈ (extractLoop [PageOutcome.ok "", PageOutcome.ok "x"] 0).1) := by
  decide

/-- C5 (amended): when a page's extraction call raises, the code
substitutes that page's marker followed by the literal failure
annotation and continues with all subsequent pages; when a page's
extraction returns empty text the page is silently skipped (no marker,
no annotation) and processing likewise continues with the subsequent
pages. -/
theorem c5_page_failure :
    (∀ (pre rest : List PageOutcome) (e : String),
      (extractLoop (pre ++ PageOutcome.err e :: rest) 0).1 =
        (extractLoop pre 0).1 ++ failedMarker (pre.length + 1) ::
          (extractLoop rest (pre.length + 1)).1) ∧
    (∀ pre rest : List PageOutcome,
      (extractLoop (pre ++ PageOutcome.ok "" :: rest) 0).1 =
        (extractLoop pre 0).1 ++ (extractLoop rest (pre.length + 1)).1) := by
  constructor
  · intro pre rest e
    have h1 : (extractLoop (pre ++ PageOutcome.err e :: rest) 0).1 =
        (extractLoop pre 0).1 ++ (extractLoop (PageOutcome.err e :: rest) (0 + pre.length)).1 := by
      rw [extractLoop_append pre (PageOutcome.err e :: rest) 0]
    rw [h1]
    simp [extractLoop]
  · intro pre rest
    have h1 : (extractLoop (pre ++ PageOutcome.ok "" :: rest) 0).1 =
        (extractLoop pre 0).1 ++ (extractLoop (PageOutcome.ok "" :: rest) (0 + pre.length)).1 := by
      rw [extractLoop_append pre (PageOutcome.ok "" :: rest) 0]
    rw [h1]
    simp [extractLoop]

/-- C6: whenever rendering fails (the library raised or returned no
images), `convert_pdf_to_image` swallows the error and returns the
base64 encoding of the 400x200 blank white fallback PNG, a non-empty
string that decodes to valid PNG bytes. -/
theorem c6_fallback :
    ∀ (lib : PdfLib) (buf : List Nat) (n : Nat), renderFails lib buf n →
      convert_pdf_to_image lib buf n = fallbackBase64 ∧
      fallbackBase64 = b64encode (pngEncode fallbackImage) ∧
      fallbackImage.width = 400 ∧ fallbackImage.height = 200 ∧
      (∃ bs, b64decode fallbackBase64 = Except.ok bs ∧ isPNG bs = true) ∧
      fallbackBase64 ≠ "" := by
  intro lib buf n h
  exact ⟨convert_fails_eq lib buf n h, rfl, rfl, rfl,
    ⟨pngEncode fallbackImage, b64_roundtrip _ (pngEncode_lt fallbackImage),
      isPNG_pngEncode fallbackImage⟩,
    b64encode_pngEncode_ne fallbackImage⟩

/-- C6 witness: the fallback behaviour evaluated for a concrete library
behaviour whose renderer raises. -/
theorem c6_witness :
    convert_pdf_to_image libA [] 0 = fallbackBase64 ∧
    fallbackBase64 = b64encode (pngEncode fallbackImage) ∧
    fallbackImage.width = 400 ∧ fallbackImage.height = 200 ∧
    (∃ bs, b64decode fallbackBase64 = Except.ok bs ∧ isPNG bs = true) ∧
    fallbackBase64 ≠ "" :=
  c6_fallback libA [] 0 (Or.inl ⟨"boom", rfl⟩)

/-- C7: when decoding stdin's base64 raises, `main` emits exactly one
stdout line, the JSON of the failure record: `success` false, a
non-empty `error`, the `"[Processing failed: ...]"` text placeholder,
empty `image_base64` and both size fields zero; no exception escapes the
entry point (the handler turns the error into this record). -/
theorem c7_bad_base64 :
    ∀ (lib : PdfLib) (stdin e : String),
      b64decode (pyStrip stdin) = Except.error e →
      main_run lib stdin = [serializeResult (mainFailureRecord e)] ∧
      (mainFailureRecord e).success = false ∧
      (mainFailureRecord e).error = some e ∧ e ≠ "" ∧
      (mainFailureRecord e).text = "[Processing failed: " ++ e ++ "]" ∧
      (mainFailureRecord e).image_base64 = "" ∧
      (mainFailureRecord e).text_length = 0 ∧
      (mainFailureRecord e).image_size = 0 := by
  intro lib stdin e h
  have h' : b64DecodeGroups ((pyStrip stdin).toList.filter b64KeepChar) = Except.error e := h
  refine ⟨?_, rfl, rfl, b64DecodeGroups_error_ne _ e h', rfl, rfl, rfl, rfl⟩
  unfold main_run
  rw [h]

/-- C7 witness: the entry-point failure path evaluated on the concrete
invalid base64 stdin `"abc"`. -/
theorem c7_witness :
    main_run libA "abc" = [serializeResult (mainFailureRecord "Incorrect padding")] ∧
    (mainFailureRecord "Incorrect padding").success = false ∧
    (mainFailureRecord "Incorrect padding").error = some "Incorrect padding" ∧
    "Incorrect padding" ≠ "" ∧
    (mainFailureRecord "Incorrect padding").text =
      "[Processing failed: " ++ "Incorrect padding" ++ "]" ∧
    (mainFailureRecord "Incorrect padding").image_base64 = "" ∧
    (mainFailureRecord "Incorrect padding").text_length = 0 ∧
    (mainFailureRecord "Incorrect padding").image_size = 0 :=
  c7_bad_base64 libA "abc" "Incorrect padding" rfl

/-- C8: `extract_text_from_pdf` never lets an exception escape — the
handled computation always yields a result — and when opening/reading
the document itself fails it returns the single string
`"[PDF text extraction failed: <message>]"` describing the failure. -/
theorem c8_extract_total :
    (∀ o : ExtractOutcome, ∃ r, extract_text_sem o = Except.ok r) ∧
    (∀ msg : String, extract_text_from_pdf (ExtractOutcome.openFail msg) =
      "[PDF text extraction failed: " ++ msg ++ "]") := by
  constructor
  · intro o
    unfold extract_text_sem
    cases extract_text_body o with
    | ok r => exact ⟨r, rfl⟩
    | error e => exact ⟨_, rfl⟩
  · intro msg
    rfl

/-- C9: a document that opens with zero pages, or whose every page
yields empty text without raising, makes `extract_text_from_pdf` return
the empty string, and `process_pdf` reports success with `text_length`
zero and empty `text` — no failure or placeholder is signalled. -/
theorem c9_all_empty :
    ∀ (lib : PdfLib) (buf : List Nat) (ps : List PageOutcome),
      lib.extract buf = ExtractOutcome.pages ps →
      (∀ p ∈ ps, p = PageOutcome.ok "") →
      extract_text_from_pdf (ExtractOutcome.pages ps) = "" ∧
      (process_pdf lib buf).success = true ∧
      (process_pdf lib buf).text_length = 0 ∧
      (process_pdf lib buf).text = "" := by
  intro lib buf ps hex hall
  have hloop := extractLoop_all_empty ps 0 hall
  have htext : extract_text_from_pdf (ExtractOutcome.pages ps) = "" := by
    have h1 : extract_text_from_pdf (ExtractOutcome.pages ps) =
        String.intercalate "\n" (extractLoop ps 0).1 := rfl
    rw [h1, hloop]
    rfl
  refine ⟨htext, rfl, ?_, ?_⟩
  · show (extract_text_run (lib.extract buf)).1.length = 0
    rw [hex]
    show (extract_text_from_pdf (ExtractOutcome.pages ps)).length = 0
    rw [htext]
    rfl
  · show (extract_text_run (lib.extract buf)).1 = ""
    rw [hex]
    exact htext

/-- C9 witness: evaluated on a concrete one-page document whose page
extracts as the empty string. -/
theorem c9_witness :
    extract_text_from_pdf (ExtractOutcome.pages [PageOutcome.ok ""]) = "" ∧
    (process_pdf libEmptyPage []).success = true ∧
    (process_pdf libEmptyPage []).text_length = 0 ∧
    (process_pdf libEmptyPage []).text = "" :=
  c9_all_empty libEmptyPage [] [PageOutcome.ok ""] rfl (by decide)

/-- C10: the fallback image string is one fixed constant — for any two
failing renders, over any library behaviours, inputs and page numbers,
`convert_pdf_to_image` returns the identical base64 string. -/
theorem c10_fallback_constant :
    ∀ (lib1 : PdfLib) (b1 : List Nat) (n1 : Nat)
      (lib2 : PdfLib) (b2 : List Nat) (n2 : Nat),
      renderFails lib1 b1 n1 → renderFails lib2 b2 n2 →
      convert_pdf_to_image lib1 b1 n1 = convert_pdf_to_image lib2 b2 n2 := by
  intro _ _ _ _ _ _ h1 h2
  rw [convert_fails_eq _ _ _ h1, convert_fails_eq _ _ _ h2]

/-- C10 witness: two different failing inputs — a raising renderer on
page 3 and an empty image list on page 0 — produce the same string. -/
theorem c10_witness :
    convert_pdf_to_image libA [1] 3 = convert_pdf_to_image libB [2] 0 :=
  c10_fallback_constant libA [1] 3 libB [2] 0 (Or.inl ⟨"boom", rfl⟩) (Or.inr rfl)

/-- C2 witness: the amended length relations evaluated on a concrete
library behaviour and a concrete failure message. -/
theorem c2_witness :
    ((process_pdf libA []).text_length = (process_pdf libA []).text.length ∧
      (process_pdf libA []).image_size = (process_pdf libA []).image_base64.length) ∧
    ((processFailureRecord "test").image_size =
        (processFailureRecord "test").image_base64.length ∧
      (processFailureRecord "test").text_length = 0 ∧
      (processFailureRecord "test").text ≠ "") :=
  ⟨c2_lengths.1 libA [], c2_lengths.2 "test"⟩

/-- C3 witness: the amended round-trip property evaluated on a concrete
library behaviour (whose renderer fails, exercising the fallback) and a
concrete entry-point failure record. -/
theorem c3_witness :
    ((process_pdf libA []).image_base64 ≠ "" ∧
      ∃ bs, b64decode ((process_pdf libA []).image_base64) = Except.ok bs ∧
        isPNG bs = true) ∧
    (mainFailureRecord "x").image_base64 = "" :=
  ⟨c3_image_roundtrip.1 libA [], c3_image_roundtrip.2 "x"⟩
